import Mathlib

/-!
Shallow embedding of `src/app.py` (clipster-backend): the `/download`
orchestration handler `download`, its probe-stage error classification, and
the `/file/{filename}` server `get_file`.

The external media extractor (`yt_dlp`) and the filesystem are modelled as
an explicit environment `Env`: the outcome of the probe call
(`extract_info(url, download=False)`), the outcome of the fetch call
(`extract_info(url, download=True)`) — each either a `DownloadError`
message or an info dictionary — and a file-existence predicate describing
`os.path.exists` after the fetch.  Python `None`/missing dictionary keys
become `Option`; Python float arithmetic in the file-size formatting is
modelled by exact rational (here: integer hundredths) arithmetic with
round-half-to-even, which is Python's rounding mode.
-/

namespace Clipster

/-- Is `needle` a pointwise initial segment of `hay`? (list version) -/
def listIsPref : List Char → List Char → Bool
  | [], _ => true
  | _ :: _, [] => false
  | a :: as, b :: bs => a == b && listIsPref as bs

/-- Does `needle` occur contiguously inside `hay`? (list version) -/
def listHasSub (needle : List Char) : List Char → Bool
  | [] => needle.isEmpty
  | b :: bs => listIsPref needle (b :: bs) || listHasSub needle bs

/-- Python's `needle in hay` substring test on strings. -/
def hasSubstr (hay needle : String) : Bool :=
  listHasSub needle.data hay.data

/-- Python's `str.lower()`: lower-case each character. -/
def strToLower (s : String) : String := ⟨s.data.map Char.toLower⟩

/-- The info dictionary returned by the extractor (`yt_dlp`) for a URL:
the keys read by `app.py`.  A missing (or `None`) key is `none`. -/
structure VideoInfo where
  title : Option String
  thumbnail : Option String
  ext : Option String
  filesize : Option Nat
  filesize_approx : Option Nat
  extractor : Option String
  format_note : Option String
  duration : Option Nat
  deriving Repr, DecidableEq

/-- The environment of one `/download` request: the generated uuid, the
configured base URL, the request URL, the outcomes of the probe and fetch
calls into the extractor, and the post-fetch filesystem. -/
structure Env where
  video_id : String
  base_url : String
  url : String
  probe : Except String VideoInfo
  fetch : Except String VideoInfo
  fileExists : String → Bool

/-- The successful JSON payload built at `app.py` lines 89–101. -/
structure DownloadResult where
  id : String
  title : String
  thumbnail : Option String
  url : String
  platform : String
  quality : String
  format : String
  duration : String
  fileSize : String
  downloadUrl : String
  deriving Repr, DecidableEq

/-- A `JSONResponse`: either `{"error": msg}` with an HTTP status code, or
a 200 with a `DownloadResult` body. -/
inductive Resp where
  | err (status : Nat) (msg : String)
  | ok (r : DownloadResult)
  deriving Repr, DecidableEq

/-- `DOWNLOAD_DIR = "downloads"` (app.py line 23). -/
def DOWNLOAD_DIR : String := "downloads"

/-- `os.path.join` for a relative second component. -/
def joinPath (a b : String) : String := a ++ "/" ++ b

/-- Python's `f"{n:02d}"`: decimal, zero-padded to width two. -/
def pad2 (n : Nat) : String :=
  if n < 10 then "0" ++ toString n else toString n

/-- `f"{duration // 60}:{duration % 60:02d}" if duration else "Unknown"`
(app.py line 97).  Python truthiness: `None` and `0` are both falsy. -/
def durationField : Option Nat → String
  | none => "Unknown"
  | some n => if n = 0 then "Unknown" else toString (n / 60) ++ ":" ++ pad2 (n % 60)

/-- `round(filesize/1024/1024, 2)` expressed in hundredths of a megabyte:
round `n * 100 / 1048576` half-to-even to an integer. -/
def bytesToCents (n : Nat) : Nat :=
  let num := n * 100
  let den := 1024 * 1024
  let q := num / den
  let r := num % den
  if den < 2 * r then q + 1
  else if 2 * r < den then q
  else if q % 2 = 0 then q else q + 1

/-- Python's `str` of the rounded float value `cents / 100`: trailing zeros
are dropped, but at least one digit is kept after the point. -/
def floatRepr (cents : Nat) : String :=
  if cents % 100 = 0 then toString (cents / 100) ++ ".0"
  else if cents % 10 = 0 then toString (cents / 100) ++ "." ++ toString ((cents / 10) % 10)
  else toString (cents / 100) ++ "." ++ pad2 (cents % 100)

/-- `f"{round(filesize/1024/1024, 2)} MB"` (app.py line 98). -/
def fmtMB (n : Nat) : String := floatRepr (bytesToCents n) ++ " MB"

/-- `f"... MB" if filesize else "Unknown"` (app.py line 98): Python
truthiness again treats `None` and `0` alike. -/
def fileSizeField : Option Nat → String
  | none => "Unknown"
  | some n => if n = 0 then "Unknown" else fmtMB n

/-- Python's `a or b` on optional sizes: `a` unless it is falsy
(`None` or `0`), else `b` (app.py line 78). -/
def pyOrNat : Option Nat → Option Nat → Option Nat
  | some n, b => if n = 0 then b else some n
  | none, b => b

/-- The probe-stage `except yt_dlp.DownloadError` handler
(app.py lines 53–66): lower-case the message, then match the ordered
substring table, returning a 400 `JSONResponse` in every branch. -/
def classifyProbeError (e : String) : Resp :=
  let error_msg := strToLower e
  if hasSubstr error_msg "private video" || hasSubstr error_msg "sign in" then
    .err 400 "This video is private or requires authentication."
  else if hasSubstr error_msg "video unavailable" then
    .err 400 "This video is unavailable or has been removed."
  else if hasSubstr error_msg "live stream" && hasSubstr error_msg "not available" then
    .err 400 "Live streams cannot be downloaded while they are ongoing."
  else if hasSubstr error_msg "age-restricted" then
    .err 400 "This video is age-restricted and cannot be downloaded."
  else
    .err 400 ("Cannot access this video: " ++ e)

/-- The success payload assembled at app.py lines 89–101 from the fetched
info dictionary. -/
def mkResult (env : Env) (info : VideoInfo) : DownloadResult :=
  let ext := info.ext.getD "mp4"
  { id := env.video_id
    title := info.title.getD "Unknown title"
    thumbnail := info.thumbnail
    url := env.url
    platform := info.extractor.getD "Unknown"
    quality := info.format_note.getD "best available"
    format := ext
    duration := durationField info.duration
    fileSize := fileSizeField (pyOrNat info.filesize info.filesize_approx)
    downloadUrl := env.base_url ++ "/file/" ++ env.video_id ++ "." ++ ext }

/-- The `/download` handler (app.py lines 29–101).  Returns the
`JSONResponse` together with a flag recording whether the fetch stage
(`extract_info(url, download=True)`) was invoked. -/
def download (env : Env) : Resp × Bool :=
  match env.probe with
  | .error e => (classifyProbeError e, false)
  | .ok _ =>
    match env.fetch with
    | .error e => (.err 500 ("Download failed: " ++ e), true)
    | .ok info =>
      let ext := info.ext.getD "mp4"
      let final_file := joinPath DOWNLOAD_DIR (env.video_id ++ "." ++ ext)
      if ! env.fileExists final_file then
        (.err 500 "Download completed but file not found. Please try again.", true)
      else
        (.ok (mkResult env info), true)

/-- A response of the `/file/{filename}` route: a `FileResponse` with its
path, download filename, media type and Content-Disposition header, or a
`JSONResponse` error. -/
inductive FileResp where
  | file (path filename media_type content_disposition : String)
  | err (status : Nat) (msg : String)
  deriving Repr, DecidableEq

/-- The `/file/{filename}` handler `get_file` (app.py lines 107–117),
parameterised by the filesystem. -/
def get_file (fs : String → Bool) (filename : String) : FileResp :=
  let file_path := joinPath DOWNLOAD_DIR filename
  if fs file_path then
    .file file_path filename "application/octet-stream"
      ("attachment; filename=" ++ filename)
  else
    .err 404 "File not found"

/-- Project the duration field out of a response, when it is a success. -/
def respDuration : Resp → Option String
  | .ok r => some r.duration
  | .err _ _ => none

/-- Project the file-size field out of a response, when it is a success. -/
def respFileSize : Resp → Option String
  | .ok r => some r.fileSize
  | .err _ _ => none

/-- Every branch of the probe-stage classifier is a 400 error. -/
theorem classifyProbeError_is_err (e : String) :
    ∃ s, classifyProbeError e = Resp.err 400 s := by
  simp only [classifyProbeError]
  split_ifs <;> exact ⟨_, rfl⟩

/-- No string of the form `s ++ " MB"` is the string `"Unknown"`. -/
theorem append_MB_ne_Unknown (s : String) : s ++ " MB" ≠ "Unknown" := by
  intro h
  have hd := congrArg String.data h
  rw [String.data_append] at hd
  have h2 : (s.data ++ (" MB".data)).getLast? = some 'B' := by
    have h3 : s.data ++ (" MB".data) = (s.data ++ [' ', 'M']) ++ ['B'] := by simp
    rw [h3, List.getLast?_concat]
  rw [hd] at h2
  simp at h2

/-- A formatted megabyte string is never `"Unknown"`. -/
theorem fmtMB_ne_Unknown (n : Nat) : fmtMB n ≠ "Unknown" :=
  append_MB_ne_Unknown _

/-- Success of `download` happens exactly through the final branch: the
probe and the fetch both returned info, the derived file path existed, and
the payload is `mkResult`. -/
theorem download_ok_elim (env : Env) (r : DownloadResult)
    (h : (download env).1 = Resp.ok r) :
    ∃ i info, env.probe = .ok i ∧ env.fetch = .ok info ∧
      env.fileExists (joinPath DOWNLOAD_DIR (env.video_id ++ "." ++ info.ext.getD "mp4")) = true ∧
      r = mkResult env info := by
  cases hp : env.probe with
  | error e =>
      exfalso
      have hd : (download env).1 = classifyProbeError e := by
        unfold download; rw [hp]
      obtain ⟨s, hs⟩ := classifyProbeError_is_err e
      rw [hd, hs] at h
      exact Resp.noConfusion h
  | ok i =>
      cases hf : env.fetch with
      | error e =>
          exfalso
          have hd : (download env).1 = Resp.err 500 ("Download failed: " ++ e) := by
            unfold download; rw [hp, hf]
          rw [hd] at h
          exact Resp.noConfusion h
      | ok info =>
          cases hex : env.fileExists (joinPath DOWNLOAD_DIR (env.video_id ++ "." ++ info.ext.getD "mp4")) with
          | false =>
              exfalso
              have hd : (download env).1 =
                  Resp.err 500 "Download completed but file not found. Please try again." := by
                unfold download; rw [hp, hf]; simp [hex]
              rw [hd] at h
              exact Resp.noConfusion h
          | true =>
              refine ⟨i, info, rfl, rfl, hex, ?_⟩
              have hd : (download env).1 = Resp.ok (mkResult env info) := by
                unfold download; rw [hp, hf]; simp [hex]
              rw [hd] at h
              exact (Resp.ok.inj h).symm

/-- C1: if the probe stage raises a `DownloadError` whose message contains
"private video" in any casing, `download` returns HTTP 400 with the
private-video message and the fetch stage is never invoked. -/
theorem private_video_short_circuits (env : Env) (e : String)
    (h : env.probe = .error e)
    (hp : hasSubstr (strToLower e) "private video" = true) :
    download env =
      (Resp.err 400 "This video is private or requires authentication.", false) := by
  unfold download
  rw [h]
  unfold classifyProbeError
  simp [hp]

/-- A sample environment whose probe raises a mixed-case private-video
error. -/
def envC1 : Env :=
  { video_id := "11111111-1111-4111-8111-111111111111"
    base_url := "http://127.0.0.1:8000"
    url := "https://example.com/v1"
    probe := .error "ERROR: Private Video - access denied"
    fetch := .ok { title := none, thumbnail := none, ext := none,
                   filesize := none, filesize_approx := none,
                   extractor := none, format_note := none, duration := none }
    fileExists := fun _ => false }

/-- Witness for C1 at `envC1`. -/
theorem private_video_short_circuits_witness :
    download envC1 =
      (Resp.err 400 "This video is private or requires authentication.", false) :=
  private_video_short_circuits envC1 "ERROR: Private Video - access denied" rfl (by decide)

/-- C2: probe-stage errors are classified by the ordered, first-match-wins,
case-insensitive substring table over the lowered message, every outcome is
an HTTP 400 client error, and fetch is never invoked. -/
theorem probe_classification_table (env : Env) (e : String)
    (h : env.probe = .error e) :
    ((download env).2 = false) ∧
    (∃ s, (download env).1 = Resp.err 400 s) ∧
    ((hasSubstr (strToLower e) "private video" || hasSubstr (strToLower e) "sign in") = true →
      (download env).1 = Resp.err 400 "This video is private or requires authentication.") ∧
    ((hasSubstr (strToLower e) "private video" || hasSubstr (strToLower e) "sign in") = false →
      hasSubstr (strToLower e) "video unavailable" = true →
      (download env).1 = Resp.err 400 "This video is unavailable or has been removed.") ∧
    ((hasSubstr (strToLower e) "private video" || hasSubstr (strToLower e) "sign in") = false →
      hasSubstr (strToLower e) "video unavailable" = false →
      (hasSubstr (strToLower e) "live stream" && hasSubstr (strToLower e) "not available") = true →
      (download env).1 = Resp.err 400 "Live streams cannot be downloaded while they are ongoing.") ∧
    ((hasSubstr (strToLower e) "private video" || hasSubstr (strToLower e) "sign in") = false →
      hasSubstr (strToLower e) "video unavailable" = false →
      (hasSubstr (strToLower e) "live stream" && hasSubstr (strToLower e) "not available") = false →
      hasSubstr (strToLower e) "age-restricted" = true →
      (download env).1 = Resp.err 400 "This video is age-restricted and cannot be downloaded.") ∧
    ((hasSubstr (strToLower e) "private video" || hasSubstr (strToLower e) "sign in") = false →
      hasSubstr (strToLower e) "video unavailable" = false →
      (hasSubstr (strToLower e) "live stream" && hasSubstr (strToLower e) "not available") = false →
      hasSubstr (strToLower e) "age-restricted" = false →
      (download env).1 = Resp.err 400 ("Cannot access this video: " ++ e)) := by
  have hd : download env = (classifyProbeError e, false) := by
    unfold download; rw [h]
  rw [hd]
  refine ⟨rfl, classifyProbeError_is_err e, ?_, ?_, ?_, ?_, ?_⟩
  · intro h1
    unfold classifyProbeError
    simp [h1]
  · intro h1 h2
    unfold classifyProbeError
    simp [h1, h2]
  · intro h1 h2 h3
    unfold classifyProbeError
    simp [h1, h2, h3]
  · intro h1 h2 h3 h4
    unfold classifyProbeError
    simp [h1, h2, h3, h4]
  · intro h1 h2 h3 h4
    unfold classifyProbeError
    simp [h1, h2, h3, h4]

/-- A sample environment whose probe raises a video-unavailable error. -/
def envC2 : Env :=
  { envC1 with probe := .error "ERROR: Video unavailable" }

/-- Witness for C2 at `envC2`: the second table row fires. -/
theorem probe_classification_table_witness :
    (download envC2).1 = Resp.err 400 "This video is unavailable or has been removed." :=
  ((probe_classification_table envC2 "ERROR: Video unavailable" rfl).2.2.2.1
    (by decide) (by decide))

/-- C3: when the probe succeeds but the fetch raises, `download` returns
the generic download-failure 500 with the message passed through, and the
result is never any 400 client error (so never one of the probe-stage
categories), even if the fetch message contains a matching phrase. -/
theorem fetch_error_is_generic_500 (env : Env) (i : VideoInfo) (e : String)
    (hp : env.probe = .ok i) (hf : env.fetch = .error e) :
    download env = (Resp.err 500 ("Download failed: " ++ e), true) ∧
    ∀ s, (download env).1 ≠ Resp.err 400 s := by
  have hd : download env = (Resp.err 500 ("Download failed: " ++ e), true) := by
    unfold download; rw [hp, hf]
  refine ⟨hd, ?_⟩
  intro s hc
  rw [hd] at hc
  have h1 : (500 : Nat) = 400 := by
    injection hc
  exact absurd h1 (by decide)

/-- A sample environment whose probe succeeds but whose fetch raises an
error containing a probe-table phrase. -/
def envC3 : Env :=
  { envC1 with
      probe := .ok { title := some "clip", thumbnail := none, ext := some "mp4",
                     filesize := none, filesize_approx := none,
                     extractor := some "youtube", format_note := none,
                     duration := some 10 }
      fetch := .error "ERROR: Private video" }

/-- Witness for C3 at `envC3`. -/
theorem fetch_error_is_generic_500_witness :
    download envC3 = (Resp.err 500 ("Download failed: " ++ "ERROR: Private video"), true) :=
  (fetch_error_is_generic_500 envC3
    { title := some "clip", thumbnail := none, ext := some "mp4",
      filesize := none, filesize_approx := none, extractor := some "youtube",
      format_note := none, duration := some 10 }
    "ERROR: Private video" rfl rfl).1

/-- C4: success is gated on the existence of the file at the derived path
`downloads/{id}.{ext}` (ext defaulting to "mp4"); when the fetch reports
success but the file is absent, `download` returns the
"completed but file not found" 500 error and no `DownloadResult`. -/
theorem file_check_gates_success (env : Env) :
    (∀ r, (download env).1 = Resp.ok r →
      ∃ info, env.fetch = .ok info ∧
        env.fileExists (joinPath DOWNLOAD_DIR (env.video_id ++ "." ++ info.ext.getD "mp4")) = true) ∧
    (∀ i info, env.probe = .ok i → env.fetch = .ok info →
      env.fileExists (joinPath DOWNLOAD_DIR (env.video_id ++ "." ++ info.ext.getD "mp4")) = false →
      download env =
        (Resp.err 500 "Download completed but file not found. Please try again.", true)) := by
  constructor
  · intro r h
    obtain ⟨i, info, hp, hf, hex, _⟩ := download_ok_elim env r h
    exact ⟨info, hf, hex⟩
  · intro i info hp hf hex
    unfold download
    rw [hp, hf]
    simp [hex]

/-- The info dictionary of a successfully fetched video. -/
def infoOk : VideoInfo :=
  { title := some "A clip", thumbnail := some "https://example.com/t.jpg",
    ext := some "webm", filesize := some 1572864, filesize_approx := none,
    extractor := some "youtube", format_note := some "720p",
    duration := some 125 }

/-- An environment whose fetch succeeds but where no file materializes. -/
def envC4 : Env :=
  { video_id := "44444444-4444-4444-8444-444444444444"
    base_url := "http://127.0.0.1:8000"
    url := "https://example.com/v4"
    probe := .ok infoOk
    fetch := .ok infoOk
    fileExists := fun _ => false }

/-- Witness for C4 at `envC4`. -/
theorem file_check_gates_success_witness :
    download envC4 =
      (Resp.err 500 "Download completed but file not found. Please try again.", true) :=
  (file_check_gates_success envC4).2 infoOk infoOk rfl rfl rfl

/-- C5: every successful `download` returns a download URL equal to
`{base_url}/file/{id}.{ext}` where id is this run's generated identifier
and ext is the extension of the on-disk file whose existence was checked. -/
theorem download_url_names_artifact (env : Env) (r : DownloadResult)
    (h : (download env).1 = Resp.ok r) :
    r.downloadUrl = env.base_url ++ "/file/" ++ env.video_id ++ "." ++ r.format ∧
    r.id = env.video_id ∧
    env.fileExists (joinPath DOWNLOAD_DIR (env.video_id ++ "." ++ r.format)) = true := by
  obtain ⟨i, info, hp, hf, hex, hr⟩ := download_ok_elim env r h
  subst hr
  exact ⟨rfl, rfl, hex⟩

/-- An environment in which everything succeeds. -/
def envC5 : Env :=
  { video_id := "55555555-5555-4555-8555-555555555555"
    base_url := "https://clipster.example"
    url := "https://example.com/v5"
    probe := .ok infoOk
    fetch := .ok infoOk
    fileExists := fun _ => true }

/-- Witness for C5 at `envC5`. -/
theorem download_url_names_artifact_witness :
    (mkResult envC5 infoOk).downloadUrl =
      envC5.base_url ++ "/file/" ++ envC5.video_id ++ "." ++ (mkResult envC5 infoOk).format :=
  (download_url_names_artifact envC5 (mkResult envC5 infoOk) rfl).1

/-- The info dictionary of a fetched video that reports duration 0. -/
def infoDur0 : VideoInfo :=
  { infoOk with duration := some 0 }

/-- An environment whose fetch succeeds with a reported duration of 0. -/
def envC6 : Env :=
  { envC5 with video_id := "66666666-6666-4666-8666-666666666666", fetch := .ok infoDur0, probe := .ok infoDur0 }

/-- C6 counterexample: on a successful run whose extractor-reported
duration is 0 seconds, the duration field is "Unknown", not the
minutes:seconds rendering "0:00" the claim prescribes for every reported
duration. -/
theorem duration_formatting_counterexample :
    respDuration (download envC6).1 = some "Unknown" ∧
    respDuration (download envC6).1 ≠ some "0:00" := by
  constructor
  · rfl
  · decide

/-- C6 (amended): on every successful run, a nonzero reported duration n
is rendered as `n / 60 : n % 60` with the seconds zero-padded to two
digits (125 gives "2:05"), while an absent — or zero — duration gives
"Unknown". -/
theorem duration_formatting (env : Env) (info : VideoInfo) (r : DownloadResult)
    (hf : env.fetch = .ok info) (h : (download env).1 = Resp.ok r) :
    (∀ n, info.duration = some n → n ≠ 0 →
      r.duration = toString (n / 60) ++ ":" ++ pad2 (n % 60)) ∧
    (info.duration = some 125 → r.duration = "2:05") ∧
    (info.duration = none → r.duration = "Unknown") ∧
    (info.duration = some 0 → r.duration = "Unknown") := by
  obtain ⟨i, info2, hp, hf2, hex, hr⟩ := download_ok_elim env r h
  rw [hf] at hf2
  injection hf2 with hinfo
  subst hinfo
  subst hr
  refine ⟨?_, ?_, ?_, ?_⟩
  · intro n hn hnz
    show durationField info.duration = _
    rw [hn]
    simp [durationField, hnz]
  · intro hn
    show durationField info.duration = _
    rw [hn]
    decide
  · intro hn
    show durationField info.duration = _
    rw [hn]
    decide
  · intro hn
    show durationField info.duration = _
    rw [hn]
    decide

/-- Witness for the amended C6 at `envC5` (reported duration 125). -/
theorem duration_formatting_witness :
    (mkResult envC5 infoOk).duration = "2:05" :=
  (duration_formatting envC5 infoOk (mkResult envC5 infoOk) rfl rfl).2.1 rfl

/-- The file-size field is "Unknown" exactly when both the exact and the
approximate size are absent or zero (Python falsiness of `None` and `0`). -/
theorem fileSizeField_pyOr_unknown (a b : Option Nat) :
    fileSizeField (pyOrNat a b) = "Unknown" ↔
      ((a = none ∨ a = some 0) ∧ (b = none ∨ b = some 0)) := by
  rcases a with _ | n
  · rcases b with _ | m
    · simp [pyOrNat, fileSizeField]
    · by_cases hm : m = 0
      · subst hm
        simp [pyOrNat, fileSizeField]
      · simp [pyOrNat, fileSizeField, hm, fmtMB_ne_Unknown m]
  · by_cases hn : n = 0
    · subst hn
      rcases b with _ | m
      · simp [pyOrNat, fileSizeField]
      · by_cases hm : m = 0
        · subst hm
          simp [pyOrNat, fileSizeField]
        · simp [pyOrNat, fileSizeField, hm, fmtMB_ne_Unknown m]
    · simp [pyOrNat, fileSizeField, hn, fmtMB_ne_Unknown n]

/-- The info dictionary of a fetched video that reports an exact file size
of 0 bytes and no approximate size. -/
def infoSize0 : VideoInfo :=
  { infoOk with filesize := some 0, filesize_approx := none }

/-- An environment whose fetch succeeds with a reported file size of 0. -/
def envC7 : Env :=
  { envC5 with video_id := "77777777-7777-4777-8777-777777777777", probe := .ok infoSize0, fetch := .ok infoSize0 }

/-- C7 counterexample: on a successful run whose extractor-reported size
is 0 bytes (and no approximate size), the file-size field is "Unknown",
not the "0.0 MB" the claim prescribes for every reported size. -/
theorem filesize_formatting_counterexample :
    respFileSize (download envC7).1 = some "Unknown" ∧
    respFileSize (download envC7).1 ≠ some "0.0 MB" := by
  constructor
  · rfl
  · decide

/-- C7 (amended): on every successful run, the nonzero size value used by
the handler (exact size, else approximate) is rendered as the byte count
divided by 1024 twice, rounded half-to-even to two decimal places with
trailing zeros dropped, suffixed " MB" (1572864 gives "1.5 MB"); a zero or
absent size gives "Unknown". -/
theorem filesize_formatting (env : Env) (info : VideoInfo) (r : DownloadResult)
    (hf : env.fetch = .ok info) (h : (download env).1 = Resp.ok r) :
    (∀ n, pyOrNat info.filesize info.filesize_approx = some n → n ≠ 0 →
      r.fileSize = fmtMB n) ∧
    (info.filesize = some 1572864 → r.fileSize = "1.5 MB") ∧
    (info.filesize = none → info.filesize_approx = none → r.fileSize = "Unknown") ∧
    (info.filesize = some 0 → info.filesize_approx = none → r.fileSize = "Unknown") := by
  obtain ⟨i, info2, hp, hf2, hex, hr⟩ := download_ok_elim env r h
  rw [hf] at hf2
  injection hf2 with hinfo
  subst hinfo
  subst hr
  refine ⟨?_, ?_, ?_, ?_⟩
  · intro n hn hnz
    show fileSizeField (pyOrNat info.filesize info.filesize_approx) = _
    rw [hn]
    simp [fileSizeField, hnz]
  · intro hn
    show fileSizeField (pyOrNat info.filesize info.filesize_approx) = _
    rw [hn]
    have hpy : pyOrNat (some 1572864) info.filesize_approx = some 1572864 := by
      simp [pyOrNat]
    rw [hpy]
    decide
  · intro hn hm
    show fileSizeField (pyOrNat info.filesize info.filesize_approx) = _
    rw [hn, hm]
    decide
  · intro hn hm
    show fileSizeField (pyOrNat info.filesize info.filesize_approx) = _
    rw [hn, hm]
    decide

/-- Witness for the amended C7 at `envC5` (exact size 1572864 bytes). -/
theorem filesize_formatting_witness :
    (mkResult envC5 infoOk).fileSize = "1.5 MB" :=
  (filesize_formatting envC5 infoOk (mkResult envC5 infoOk) rfl rfl).2.1 rfl

/-- C8: `get_file` looks the caller-supplied name up by direct path
concatenation under the download directory; if the file exists it is
returned as an attachment with that filename and the generic binary media
type, otherwise the result is the 404 "File not found" error — never a
500 server error. -/
theorem get_file_contract (fs : String → Bool) (filename : String) :
    (fs (joinPath DOWNLOAD_DIR filename) = true →
      get_file fs filename =
        FileResp.file (joinPath DOWNLOAD_DIR filename) filename
          "application/octet-stream" ("attachment; filename=" ++ filename)) ∧
    (fs (joinPath DOWNLOAD_DIR filename) = false →
      get_file fs filename = FileResp.err 404 "File not found") ∧
    (∀ m, get_file fs filename ≠ FileResp.err 500 m) := by
  refine ⟨?_, ?_, ?_⟩
  · intro h1
    unfold get_file
    simp [h1]
  · intro h1
    unfold get_file
    simp [h1]
  · intro m hc
    simp only [get_file] at hc
    cases hfs : fs (joinPath DOWNLOAD_DIR filename) with
    | true => simp [hfs] at hc
    | false => simp [hfs] at hc

/-- A filesystem that holds exactly one produced file. -/
def fsC8 : String → Bool := fun s => s == "downloads/abc.mp4"

/-- Witness for C8 at `fsC8`: a never-produced filename gets the 404. -/
theorem get_file_contract_witness :
    get_file fsC8 "missing.bin" = FileResp.err 404 "File not found" :=
  (get_file_contract fsC8 "missing.bin").2.1 (by decide)

/-- An environment whose fetch succeeds with a reported duration of 0,
for the zero-duration truthiness claim. -/
def envC9 : Env :=
  { envC5 with video_id := "99999999-9999-4999-8999-999999999999", probe := .ok infoDur0, fetch := .ok infoDur0 }

/-- C9: on a successful run whose extractor-reported duration is exactly
0 seconds, the duration field is "Unknown" and not "0:00" — the Python
truthiness test treats 0 like an absent duration. -/
theorem zero_duration_is_unknown (env : Env) (info : VideoInfo) (r : DownloadResult)
    (hf : env.fetch = .ok info) (hd : info.duration = some 0)
    (h : (download env).1 = Resp.ok r) :
    r.duration = "Unknown" ∧ r.duration ≠ "0:00" := by
  obtain ⟨i, info2, hp, hf2, hex, hr⟩ := download_ok_elim env r h
  rw [hf] at hf2
  injection hf2 with hinfo
  subst hinfo
  subst hr
  constructor
  · show durationField info.duration = _
    rw [hd]
    decide
  · show durationField info.duration ≠ _
    rw [hd]
    decide

/-- Witness for C9 at `envC9`. -/
theorem zero_duration_is_unknown_witness :
    (mkResult envC9 infoDur0).duration = "Unknown" :=
  (zero_duration_is_unknown envC9 infoDur0 (mkResult envC9 infoDur0) rfl rfl rfl).1

/-- C10: on every successful run, when the exact size is absent or zero
but a nonzero approximate size is reported, the file-size field is
formatted from the approximate value; and the field is "Unknown" exactly
when both the exact and the approximate size are absent or zero. -/
theorem filesize_approx_fallback (env : Env) (info : VideoInfo) (r : DownloadResult)
    (hf : env.fetch = .ok info) (h : (download env).1 = Resp.ok r) :
    ((info.filesize = none ∨ info.filesize = some 0) →
      ∀ n, info.filesize_approx = some n → n ≠ 0 → r.fileSize = fmtMB n) ∧
    (r.fileSize = "Unknown" ↔
      ((info.filesize = none ∨ info.filesize = some 0) ∧
       (info.filesize_approx = none ∨ info.filesize_approx = some 0))) := by
  obtain ⟨i, info2, hp, hf2, hex, hr⟩ := download_ok_elim env r h
  rw [hf] at hf2
  injection hf2 with hinfo
  subst hinfo
  subst hr
  constructor
  · intro hfa n hn hnz
    show fileSizeField (pyOrNat info.filesize info.filesize_approx) = _
    rcases hfa with h0 | h0 <;>
      rw [h0, hn] <;> simp [pyOrNat, fileSizeField, hnz]
  · show fileSizeField (pyOrNat info.filesize info.filesize_approx) = "Unknown" ↔ _
    exact fileSizeField_pyOr_unknown info.filesize info.filesize_approx

/-- The info dictionary of a fetched video with only an approximate size. -/
def infoApprox : VideoInfo :=
  { infoOk with filesize := none, filesize_approx := some 2097152 }

/-- An environment whose fetch reports only an approximate file size. -/
def envC10 : Env :=
  { envC5 with video_id := "aaaaaaaa-aaaa-4aaa-8aaa-aaaaaaaaaaaa", probe := .ok infoApprox, fetch := .ok infoApprox }

/-- Witness for C10 at `envC10`: the approximate size is formatted. -/
theorem filesize_approx_fallback_witness :
    (mkResult envC10 infoApprox).fileSize = fmtMB 2097152 :=
  (filesize_approx_fallback envC10 infoApprox (mkResult envC10 infoApprox) rfl rfl).1
    (Or.inl rfl) 2097152 rfl (by decide)

example : hasSubstr "error: private video. sign in" "private video" = true := by decide
example : hasSubstr "all fine" "private video" = false := by decide
example : durationField (some 125) = "2:05" := by decide
example : durationField (some 0) = "Unknown" := by decide
example : durationField (some 3725) = "62:05" := by decide
example : fileSizeField (some 1572864) = "1.5 MB" := by decide
example : fmtMB 1048576 = "1.0 MB" := by decide
example : fmtMB 1100000 = "1.05 MB" := by decide

end Clipster
